/-
Verification of the AIGoalCoach goal-refinement pipeline.

This development shallowly embeds the backend `GeminiService` (schema
validation, response parsing with code-fence stripping, bounded retry with
fixed backoff, confidence guardrail, telemetry emission) and proves the
documented behavioural properties against the embedding.

Conventions of the embedding:
* JavaScript values decoded from JSON are modelled by the inductive `Json`;
  JSON numbers are modelled exactly as rationals (`ℚ`), with the zod
  `.int()` check modelled as `den = 1`.
* Effects are made explicit: the fetch behaviour of the external model
  endpoint is an environment `Env`, and `refineGoal` returns a trace
  recording the result, the emitted telemetry records, the number of loop
  attempts, the number of network fetches, and the backoff delays.
* Wall-clock quantities (timestamps, latency, cost) are omitted from the
  telemetry model; only fields the properties mention are kept.
-/
import Mathlib

namespace AIGoalCoach

/-! ## JSON values (results of `JSON.parse`) -/

/-- A decoded JSON value.  Numbers are modelled as exact rationals; the
decimal/exponent grammar of JSON denotes rationals and zod's integer check
is then `den = 1`. -/
inductive Json where
  | null
  | bool (b : Bool)
  | num (q : ℚ)
  | str (s : String)
  | arr (elems : List Json)
  | obj (fields : List (String × Json))

/-- The string payload of a `Json.str`, defaulting to `""`.  Used only on
values already checked to be strings. -/
def Json.strD : Json → String
  | .str s => s
  | _ => ""

/-- Project a numeric JSON value. -/
def Json.asNum? : Json → Option ℚ
  | .num q => some q
  | _ => none

/-- zod's `getParsedType` name for a decoded value (used in its default
invalid-type messages). -/
def Json.typeName : Json → String
  | .null => "null"
  | .bool _ => "boolean"
  | .num _ => "number"
  | .str _ => "string"
  | .arr _ => "array"
  | .obj _ => "object"

/-! ## JavaScript whitespace, `String.prototype.trim`, and JSON whitespace -/

/-- The JavaScript `\s` / `trim` whitespace class: WhiteSpace and
LineTerminator code points. -/
def isJsWs (c : Char) : Bool :=
  let n := c.toNat
  n = 9 || n = 10 || n = 11 || n = 12 || n = 13 || n = 32 || n = 160 ||
  n = 0x1680 || (0x2000 ≤ n && n ≤ 0x200A) || n = 0x2028 || n = 0x2029 ||
  n = 0x202F || n = 0x205F || n = 0x3000 || n = 0xFEFF

/-- `String.prototype.trim` on a character list. -/
def jsTrimList (l : List Char) : List Char :=
  ((l.dropWhile isJsWs).reverse.dropWhile isJsWs).reverse

/-- `String.prototype.trim`. -/
def jsTrim (s : String) : String :=
  ⟨jsTrimList s.data⟩

/-- JSON-grammar insignificant whitespace (space, tab, LF, CR). -/
def isJsonWs (c : Char) : Bool :=
  c = ' ' || c = '\t' || c = '\n' || c = '\r'

/-- Skip JSON whitespace. -/
def skipWs (l : List Char) : List Char :=
  l.dropWhile isJsonWs

/-! ## A model of `JSON.parse`

A standard recursive-descent parser for the JSON grammar (RFC 8259), with
fuel to make the recursion structural.  Strings support the JSON escape
sequences; numbers follow the JSON number grammar and are read as exact
rationals. -/

/-- Value of a hexadecimal digit. -/
def hexVal (c : Char) : Option Nat :=
  if '0' ≤ c ∧ c ≤ '9' then some (c.toNat - '0'.toNat)
  else if 'a' ≤ c ∧ c ≤ 'f' then some (c.toNat - 'a'.toNat + 10)
  else if 'A' ≤ c ∧ c ≤ 'F' then some (c.toNat - 'A'.toNat + 10)
  else none

/-- Parse the body of a JSON string literal (after the opening quote),
returning the decoded characters and the input after the closing quote. -/
def parseJStringChars : List Char → Option (List Char × List Char)
  | [] => none
  | '"' :: rest => some ([], rest)
  | '\\' :: esc =>
    match esc with
    | '"' :: r => (parseJStringChars r).map (fun p => ('"' :: p.1, p.2))
    | '\\' :: r => (parseJStringChars r).map (fun p => ('\\' :: p.1, p.2))
    | '/' :: r => (parseJStringChars r).map (fun p => ('/' :: p.1, p.2))
    | 'b' :: r => (parseJStringChars r).map (fun p => ('\x08' :: p.1, p.2))
    | 'f' :: r => (parseJStringChars r).map (fun p => ('\x0C' :: p.1, p.2))
    | 'n' :: r => (parseJStringChars r).map (fun p => ('\n' :: p.1, p.2))
    | 'r' :: r => (parseJStringChars r).map (fun p => ('\r' :: p.1, p.2))
    | 't' :: r => (parseJStringChars r).map (fun p => ('\t' :: p.1, p.2))
    | 'u' :: h1 :: h2 :: h3 :: h4 :: r =>
      match hexVal h1, hexVal h2, hexVal h3, hexVal h4 with
      | some a, some b, some c, some d =>
        (parseJStringChars r).map
          (fun p => (Char.ofNat (((a * 16 + b) * 16 + c) * 16 + d) :: p.1, p.2))
      | _, _, _, _ => none
    | _ => none
  | c :: rest =>
    if c.toNat < 0x20 then none
    else (parseJStringChars rest).map (fun p => (c :: p.1, p.2))

/-- Is `c` an ASCII decimal digit? -/
def isDigitChar (c : Char) : Bool :=
  '0' ≤ c && c ≤ '9'

/-- Digits to a natural number (most significant first). -/
def digitsToNat (ds : List Char) : Nat :=
  ds.foldl (fun acc c => acc * 10 + (c.toNat - '0'.toNat)) 0

/-- Assemble a JSON number from its sign, combined mantissa digits, and net
decimal exponent (exponent part minus the number of fraction digits):
the exact rational `m * 10 ^ p`. -/
def mkJsonNum (neg : Bool) (mant : Nat) (p : Int) : ℚ :=
  let m : Int := if neg then -(mant : Int) else (mant : Int)
  if 0 ≤ p then mkRat (m * 10 ^ p.toNat) 1
  else mkRat m (10 ^ (-p).toNat)

/-- Parse a JSON number (strict grammar: no leading zeros, `.` and `e`
parts require digits). -/
def parseJNumber (l : List Char) : Option (ℚ × List Char) :=
  let (neg, l1) := match l with
    | '-' :: r => (true, r)
    | _ => (false, l)
  match l1.span isDigitChar with
  | (intDs, rest1) =>
    if intDs = [] then none
    else if intDs.head? = some '0' ∧ intDs.length > 1 then none
    else
      let (fracDs, rest2) := match rest1 with
        | '.' :: r => r.span isDigitChar
        | _ => ([], rest1)
      match rest1 with
      | '.' :: _ =>
        if fracDs = [] then none else parseJNumberExp neg intDs fracDs rest2
      | _ => parseJNumberExp neg intDs fracDs rest2
where
  /-- Parse the optional exponent part and assemble the value. -/
  parseJNumberExp (neg : Bool) (intDs fracDs : List Char) (rest : List Char) :
      Option (ℚ × List Char) :=
    let mant := digitsToNat (intDs ++ fracDs)
    let base : Int := -(fracDs.length : Int)
    match rest with
    | 'e' :: r => parseExpDigits neg mant base r
    | 'E' :: r => parseExpDigits neg mant base r
    | _ => some (mkJsonNum neg mant base, rest)
  /-- Parse the digits of an exponent with optional sign. -/
  parseExpDigits (neg : Bool) (mant : Nat) (base : Int) (r : List Char) :
      Option (ℚ × List Char) :=
    let (eneg, r1) := match r with
      | '+' :: r2 => (false, r2)
      | '-' :: r2 => (true, r2)
      | _ => (false, r)
    match r1.span isDigitChar with
    | (expDs, rest) =>
      if expDs = [] then none
      else
        let e : Int := if eneg then -(digitsToNat expDs : Int) else (digitsToNat expDs : Int)
        some (mkJsonNum neg mant (base + e), rest)

mutual

/-- Parse one JSON value (leading whitespace allowed), returning the value
and the unconsumed input. -/
def parseVal : Nat → List Char → Option (Json × List Char)
  | 0, _ => none
  | fuel + 1, cs =>
    match skipWs cs with
    | '{' :: rest =>
      match skipWs rest with
      | '}' :: r2 => some (.obj [], r2)
      | r2 => (parseMembers fuel r2).map (fun p => (.obj p.1, p.2))
    | '[' :: rest =>
      match skipWs rest with
      | ']' :: r2 => some (.arr [], r2)
      | r2 => (parseElems fuel r2).map (fun p => (.arr p.1, p.2))
    | '"' :: rest => (parseJStringChars rest).map (fun p => (.str ⟨p.1⟩, p.2))
    | 't' :: 'r' :: 'u' :: 'e' :: r => some (.bool true, r)
    | 'f' :: 'a' :: 'l' :: 's' :: 'e' :: r => some (.bool false, r)
    | 'n' :: 'u' :: 'l' :: 'l' :: r => some (.null, r)
    | cs' => (parseJNumber cs').map (fun p => (.num p.1, p.2))

/-- Parse the members of a JSON object after its opening brace. -/
def parseMembers : Nat → List Char → Option (List (String × Json) × List Char)
  | 0, _ => none
  | fuel + 1, cs =>
    match skipWs cs with
    | '"' :: rest =>
      match parseJStringChars rest with
      | none => none
      | some (key, r1) =>
        match skipWs r1 with
        | ':' :: r2 =>
          match parseVal fuel r2 with
          | none => none
          | some (v, r3) =>
            match skipWs r3 with
            | ',' :: r4 =>
              (parseMembers fuel r4).map (fun p => ((⟨key⟩, v) :: p.1, p.2))
            | '}' :: r4 => some ([(⟨key⟩, v)], r4)
            | _ => none
        | _ => none
    | _ => none

/-- Parse the elements of a JSON array after its opening bracket. -/
def parseElems : Nat → List Char → Option (List Json × List Char)
  | 0, _ => none
  | fuel + 1, cs =>
    match parseVal fuel cs with
    | none => none
    | some (v, r1) =>
      match skipWs r1 with
      | ',' :: r2 => (parseElems fuel r2).map (fun p => (v :: p.1, p.2))
      | ']' :: r2 => some ([v], r2)
      | _ => none

end

/-- `JSON.parse`: a whole string parses to a single value with only
whitespace left over. -/
def jsonParse (s : String) : Option Json :=
  match parseVal (2 * s.length + 4) s.data with
  | some (v, rest) => if skipWs rest = [] then some v else none
  | none => none

/-! ## The code-fence extraction of `parseResponse`

`parseResponse` applies the regular expression
    /```(?:json)?\s*([\s\S]*?)\s*```/
to the text payload and, when it matches, keeps the first capture group.
For a backtracking engine this denotes: find the leftmost backtick fence,
optionally consume a literal `json` tag, and capture everything up to the
next backtick fence, with surrounding whitespace stripped.  Since
`parseResponse` then calls `.trim()` on the result, the whitespace
stripping of the capture is absorbed by that trim, so the model returns
the raw slice between the fences. -/

/-- The three characters of a code fence. -/
def fenceChars : List Char := "```".data

/-- The four characters of the `json` tag. -/
def jsonTagChars : List Char := "json".data

/-- The backtick character. -/
def backtick : Char := Char.ofNat 96

/-- Does the list start with a backtick fence? -/
def hasFencePrefix (l : List Char) : Bool :=
  l.take 3 = fenceChars

/-- Index of the first backtick fence. -/
def findFence : List Char → Option Nat
  | [] => none
  | c :: rest =>
    if hasFencePrefix (c :: rest) then some 0
    else (findFence rest).map Nat.succ

/-- Does the list start with the literal `json` tag? -/
def hasJsonTag (l : List Char) : Bool :=
  l.take 4 = jsonTagChars

/-- The capture group of the fence regex, when it matches: the slice
between the end of the opening fence (and optional `json` tag) and the
next fence. -/
def extractCapture (cs : List Char) : Option (List Char) :=
  match findFence cs with
  | none => none
  | some i =>
    let afterOpen := cs.drop (i + 3)
    let body := if hasJsonTag afterOpen then afterOpen.drop 4 else afterOpen
    match findFence body with
    | none => none
    | some q => some (body.take q)

/-! ## The response envelope and `parseResponse` -/

/-- One part of a candidate's content: `parts[i].text`. -/
structure ResponsePart where
  text : Option String
deriving DecidableEq

/-- `candidates[i].content`. -/
structure ResponseContent where
  parts : List ResponsePart
deriving DecidableEq

/-- One element of `candidates`. -/
structure ResponseCandidate where
  content : Option ResponseContent
deriving DecidableEq

/-- The response envelope returned by the model endpoint. -/
structure ApiResponse where
  candidates : List ResponseCandidate
deriving DecidableEq

/-- The optional chain `apiResponse.candidates?.[0]?.content?.parts?.[0]?.text`. -/
def extractText (r : ApiResponse) : Option String :=
  r.candidates.head? >>= (fun c => c.content) >>=
    (fun c => c.parts.head?) >>= (fun p => p.text)

/-- An envelope with a single text part (the shape produced by a
successful generate-content call). -/
def mkEnvelope (payload : String) : ApiResponse :=
  ⟨[⟨some ⟨[⟨some payload⟩]⟩⟩]⟩

/-- `GeminiService.parseResponse`: extract the text payload (a missing or
empty payload is an invalid response structure), strip a surrounding code
fence when the fence regex matches, trim, and `JSON.parse` the result.
All failures are rethrown with the `Failed to parse API response` prefix;
the model uses a fixed description for `JSON.parse` syntax errors. -/
def parseResponse (r : ApiResponse) : Except String Json :=
  match extractText r with
  | none => .error "Failed to parse API response: Invalid API response structure"
  | some t =>
    if t = "" then
      .error "Failed to parse API response: Invalid API response structure"
    else
      let jsonStr := match extractCapture t.data with
        | some cap => cap
        | none => t.data
      match jsonParse ⟨jsTrimList jsonStr⟩ with
      | some v => .ok v
      | none => .error "Failed to parse API response: Unexpected token in JSON"

/-! ## The schema validator (`goalSchema`)

The zod schema
  `z.object({ refined_goal: z.string().min(1, ...),
              key_results: z.array(z.string().min(1, ...)).min(3, ...).max(5, ...),
              confidence_score: z.number().int().min(1, ...).max(10, ...) })`.
`parse` collects the issues of every field (zod does not stop at the first
violation); array length checks run before element checks; number checks
run in chain order (`int`, `min`, `max`).  Unknown keys are stripped; a
missing key is a `Required` issue; a wrongly-typed value is a single
invalid-type issue for that field. -/

/-- The validated output shape. -/
structure RefinedGoal where
  refined_goal : String
  key_results : List String
  confidence_score : Int
deriving DecidableEq

/-- Property lookup on a decoded JSON object (`data[key]`); for duplicate
keys `JSON.parse` keeps the last occurrence. -/
def lookupField (fields : List (String × Json)) (key : String) : Option Json :=
  (fields.reverse.find? (fun f => f.1 = key)).map (fun f => f.2)

/-- Property lookup on an arbitrary decoded value (non-objects have no
schema fields). -/
def fieldOf : Json → String → Option Json
  | .obj fields, key => lookupField fields key
  | _, _ => none

/-- Issues of the `refined_goal` field schema `z.string().min(1, ...)`. -/
def refinedGoalIssues (v : Json) : List String :=
  match v with
  | .str s => if s.length = 0 then ["refined_goal must be a non-empty string"] else []
  | other => ["Expected string, received " ++ other.typeName]

/-- Issues of the `key_results` field schema
`z.array(z.string().min(1, ...)).min(3, ...).max(5, ...)`. -/
def keyResultsIssues (v : Json) : List String :=
  match v with
  | .arr xs =>
    (if xs.length < 3 then ["key_results must have at least 3 items"] else []) ++
    (if xs.length > 5 then ["key_results must have at most 5 items"] else []) ++
    xs.flatMap (fun x =>
      match x with
      | .str s => if s.length = 0 then ["Each key result must be a non-empty string"] else []
      | other => ["Expected string, received " ++ other.typeName])
  | other => ["Expected array, received " ++ other.typeName]

/-- Issues of the `confidence_score` field schema
`z.number().int().min(1, ...).max(10, ...)`. -/
def confidenceIssues (v : Json) : List String :=
  match v with
  | .num q =>
    (if q.den = 1 then [] else ["Expected integer, received float"]) ++
    (if q < 1 then ["confidence_score must be at least 1"] else []) ++
    (if q > 10 then ["confidence_score must be at most 10"] else [])
  | other => ["Expected number, received " ++ other.typeName]

/-- All issues `goalSchema.parse` raises for a decoded value, in zod's
field order. -/
def goalIssues (j : Json) : List String :=
  match j with
  | .obj fields =>
    (match lookupField fields "refined_goal" with
     | none => ["Required"]
     | some v => refinedGoalIssues v) ++
    (match lookupField fields "key_results" with
     | none => ["Required"]
     | some v => keyResultsIssues v) ++
    (match lookupField fields "confidence_score" with
     | none => ["Required"]
     | some v => confidenceIssues v)
  | other => ["Expected object, received " ++ other.typeName]

/-- The object `goalSchema.parse` returns on success (the declared fields,
with their checked runtime types).  The default branches are unreachable
when `goalIssues` is empty. -/
def extractGoal (j : Json) : RefinedGoal :=
  { refined_goal :=
      match fieldOf j "refined_goal" with
      | some (.str s) => s
      | _ => "",
    key_results :=
      match fieldOf j "key_results" with
      | some (.arr xs) => xs.map Json.strD
      | _ => [],
    confidence_score :=
      match fieldOf j "confidence_score" with
      | some (.num q) => q.num
      | _ => 0 }

/-- `goalSchema.parse`: the validated `RefinedGoal`, or a `ZodError`
carrying every violated constraint. -/
def goalSchemaParse (j : Json) : Except (List String) RefinedGoal :=
  match goalIssues j with
  | [] => .ok (extractGoal j)
  | issues => .error issues

/-- The schema constraints on the output shape, as a boolean predicate:
non-empty `refined_goal`, 3–5 non-empty `key_results`, integral
`confidence_score` in `[1, 10]` (integrality is the `Int` type). -/
def checkGoalSchema (g : RefinedGoal) : Bool :=
  decide (1 ≤ g.refined_goal.length) &&
  decide (3 ≤ g.key_results.length) &&
  decide (g.key_results.length ≤ 5) &&
  g.key_results.all (fun k => decide (1 ≤ k.length)) &&
  decide (1 ≤ g.confidence_score) &&
  decide (g.confidence_score ≤ 10)

/-! ## Prompt builder and request body -/

/-- `GeminiService.buildPrompt`: the instruction template with the user
input spliced in. -/
def buildPrompt (userInput : String) : String :=
  "You are an expert goal-setting coach. Analyze the following vague goal and convert it into a SMART goal (Specific, Measurable, Achievable, Relevant, Time-bound).\n\nUser Input: \"" ++
  userInput ++
  "\"\n\nRespond with a JSON object containing:\n1. refined_goal: A clear, SMART version of the goal\n2. key_results: An array of 3-5 measurable milestones/key results\n3. confidence_score: A number 1-10 indicating your confidence that the input was actually a goal (0 = definitely not a goal, 10 = definitely a valid goal)\n\nIf the input is nonsensical or obviously not a goal, set confidence_score to a low number and provide the best interpretation you can.\n\nReturn ONLY valid JSON, no markdown formatting."

/-- The generation configuration sent with each request (constants in the
source; the two sampling parameters are exact decimals). -/
structure GenerationConfig where
  temperature : ℚ
  topK : Nat
  topP : ℚ
  maxOutputTokens : Nat
  responseMimeType : String
  responseSchema : Json

/-- The machine-readable schema descriptor mirroring `goalSchema`. -/
def responseSchemaDescriptor : Json :=
  .obj [("type", .str "object"),
        ("properties", .obj
          [("refined_goal", .obj
             [("type", .str "string"),
              ("description", .str "SMART version of the goal (Specific, Measurable, Achievable, Relevant, Time-bound)")]),
           ("key_results", .obj
             [("type", .str "array"),
              ("items", .obj [("type", .str "string")]),
              ("minItems", .num 3),
              ("maxItems", .num 5),
              ("description", .str "Array of 3-5 measurable key results/milestones")]),
           ("confidence_score", .obj
             [("type", .str "integer"),
              ("minimum", .num 1),
              ("maximum", .num 10),
              ("description", .str "Confidence score 1-10 that the input was a valid goal")])]),
        ("required", .arr [.str "refined_goal", .str "key_results", .str "confidence_score"])]

/-- The request body: one content part holding the prompt, plus the
generation configuration. -/
structure RequestBody where
  contents : String
  generationConfig : GenerationConfig

/-- `GeminiService.buildRequestBody`. -/
def buildRequestBody (prompt : String) : RequestBody :=
  { contents := prompt,
    generationConfig :=
      { temperature := 7 / 10,
        topK := 40,
        topP := 95 / 100,
        maxOutputTokens := 1024,
        responseMimeType := "application/json",
        responseSchema := responseSchemaDescriptor } }

/-- `GeminiService.estimateTokens`: `Math.ceil(text.length / 4)`. -/
def estimateTokens (text : String) : Nat :=
  (text.length + 3) / 4

/-! ## `JSON.stringify` of a validated goal (for the completion-token
estimate) -/

/-- Escape one character for a JSON string literal. -/
def jsEscapeChar (c : Char) : String :=
  if c = '"' then "\\\""
  else if c = '\\' then "\\\\"
  else if c = '\n' then "\\n"
  else if c = '\r' then "\\r"
  else if c = '\t' then "\\t"
  else if c = '\x08' then "\\b"
  else if c = '\x0C' then "\\f"
  else String.singleton c

/-- A JSON string literal for `s`. -/
def jsStringLit (s : String) : String :=
  "\"" ++ String.join (s.data.map jsEscapeChar) ++ "\""

/-- `JSON.stringify` of the validated response object (fields in schema
order, as zod returns them). -/
def stringifyGoal (g : RefinedGoal) : String :=
  "\x7b\"refined_goal\":" ++ jsStringLit g.refined_goal ++
  ",\"key_results\":[" ++
  String.intercalate "," (g.key_results.map jsStringLit) ++
  "],\"confidence_score\":" ++ toString g.confidence_score ++ "\x7d"

/-! ## Telemetry -/

/-- The model identifier constant. -/
def geminiModelName : String := "gemini-2.5-flash"

/-- One record handed to `TelemetryService.logAICall`.  Wall-clock and
cost fields (timestamp, latency, cost estimates) are omitted from the
model; the telemetry sink is modelled as always succeeding. -/
structure TelemetryRecord where
  userInput : String
  aiOutput : Option RefinedGoal
  promptTokens : Nat
  completionTokens : Nat
  modelName : String
  success : Bool
  errorMessage : Option String
deriving DecidableEq

/-! ## The AI gateway: one call, and the retry loop -/

/-- What one `fetch` to the model endpoint does, chosen by the
environment. -/
inductive FetchOutcome where
  | ok (body : ApiResponse)
  | httpError (status : Nat) (errMessage : Option String) (statusText : String)
  | networkError (msg : String)
  | bodyJsonError (msg : String)

/-- The environment of one pipeline invocation: the credential (as read
from `GOOGLE_API_KEY`, `none` when unset) and the endpoint's behaviour for
the request on each attempt (1-indexed). -/
structure Env where
  apiKey : Option String
  fetch : RequestBody → Nat → FetchOutcome

/-- Truthiness of the credential (`!this.apiKey`): absent or empty is
falsy. -/
def keyPresent : Option String → Bool
  | none => false
  | some s => s ≠ ""

/-- `GeminiService.callGeminiAPI`: raise the configuration error when the
credential is falsy (before any fetch), otherwise perform the fetch and
normalise every failure into the `Failed to call Gemini API` channel. -/
def callGeminiAPIResult (apiKey : Option String) (fo : FetchOutcome) :
    Except String ApiResponse :=
  if keyPresent apiKey = false then
    .error "Failed to call Gemini API: GOOGLE_API_KEY environment variable is not set"
  else
    match fo with
    | .ok body => .ok body
    | .httpError status errMessage statusText =>
      .error ("Failed to call Gemini API: Gemini API error (" ++ toString status ++
              "): " ++ (errMessage.getD statusText))
    | .networkError msg => .error ("Failed to call Gemini API: " ++ msg)
    | .bodyJsonError msg => .error ("Failed to call Gemini API: " ++ msg)

deriving instance DecidableEq for Except

/-- The outcome of the retry loop, with its observable effects: the final
result, how many loop iterations ran, how many network fetches happened,
and the backoff delays awaited (in milliseconds). -/
structure RetryResult where
  result : Except String ApiResponse
  attemptsMade : Nat
  fetches : Nat
  delaysMs : List Nat
deriving DecidableEq

/-- One network fetch happens per attempt exactly when the credential is
truthy. -/
def fetchCount (apiKey : Option String) : Nat :=
  if keyPresent apiKey then 1 else 0

/-- The body of `callGeminiAPIWithRetry`'s `for` loop, from attempt number
`attempt` with `remaining` iterations left. -/
def retryGo (env : Env) (body : RequestBody) : Nat → Nat → RetryResult
  | _, 0 => ⟨.error "Failed to call Gemini API: no attempts", 0, 0, []⟩
  | attempt, remaining + 1 =>
    match callGeminiAPIResult env.apiKey (env.fetch body attempt) with
    | .ok resp => ⟨.ok resp, 1, fetchCount env.apiKey, []⟩
    | .error e =>
      if remaining = 0 then ⟨.error e, 1, fetchCount env.apiKey, []⟩
      else
        let rest := retryGo env body (attempt + 1) remaining
        ⟨rest.result, rest.attemptsMade + 1, rest.fetches + fetchCount env.apiKey,
         4000 :: rest.delaysMs⟩

/-- `GeminiService.callGeminiAPIWithRetry`: up to `maxRetries` attempts,
awaiting a fixed 4000 ms delay between consecutive attempts, swallowing
each attempt's error until the last and rethrowing the final one. -/
def callGeminiAPIWithRetry (env : Env) (body : RequestBody) (maxRetries : Nat) :
    RetryResult :=
  retryGo env body 1 maxRetries

/-- The result attempt number `i` would produce on its own. -/
def attemptResult (env : Env) (body : RequestBody) (i : Nat) :
    Except String ApiResponse :=
  callGeminiAPIResult env.apiKey (env.fetch body i)

/-! ## The refinement orchestrator (`GeminiService.refineGoal`) -/

/-- A failure raised by the pipeline, by origin: gateway error (the
message rethrown from the retry loop), response-extraction/parse error, or
a `ZodError` carrying the violated constraints. -/
inductive PipelineError where
  | apiError (msg : String)
  | parseError (msg : String)
  | validationError (issues : List String)
deriving DecidableEq

/-- `error.message` of a pipeline failure (a `ZodError`'s message renders
its issues). -/
def PipelineError.message : PipelineError → String
  | .apiError msg => msg
  | .parseError msg => msg
  | .validationError issues => String.intercalate "; " issues

/-- What `refineGoal` delivers to its caller: a returned goal object, a
returned guardrail-rejection object `{error}` (carrying no goal data), or
a raised failure. -/
inductive PipelineResult where
  | goal (g : RefinedGoal)
  | rejected (error : String)
  | failed (err : PipelineError)
deriving DecidableEq

/-- The argument passed for `userInput`: absent (or otherwise falsy),
present but not a string, or a string. -/
inductive GoalInput where
  | missing
  | nonText
  | text (s : String)
deriving DecidableEq

/-- The input guard
`!userInput || typeof userInput !== 'string' || userInput.trim().length === 0`. -/
def shortCircuits : GoalInput → Bool
  | .missing => true
  | .nonText => true
  | .text s => jsTrim s = ""

/-- The string content of a text input. -/
def inputText : GoalInput → String
  | .text s => s
  | _ => ""

/-- The guardrail rejection message. -/
def guardrailMessage : String := "Input does not appear to be a valid goal."

/-- The sentinel goal returned for empty input. -/
def emptySentinel : RefinedGoal :=
  { refined_goal := "No goal provided", key_results := [], confidence_score := 0 }

/-- Everything observable about one `refineGoal` invocation. -/
structure RefineTrace where
  result : PipelineResult
  telemetry : List TelemetryRecord
  attempts : Nat
  fetches : Nat
  delaysMs : List Nat
deriving DecidableEq

/-- The telemetry record of `handleEmptyInput`. -/
def emptyInputRecord : TelemetryRecord :=
  { userInput := "EMPTY_INPUT", aiOutput := some emptySentinel, promptTokens := 0,
    completionTokens := 0, modelName := geminiModelName, success := true,
    errorMessage := none }

/-- The telemetry record of the catch block. -/
def failureRecord (s : String) (err : PipelineError) : TelemetryRecord :=
  { userInput := s, aiOutput := none, promptTokens := 0, completionTokens := 0,
    modelName := geminiModelName, success := false,
    errorMessage := some err.message }

/-- The telemetry record of the success path. -/
def successRecord (s prompt : String) (g : RefinedGoal) : TelemetryRecord :=
  { userInput := s, aiOutput := some g, promptTokens := estimateTokens prompt,
    completionTokens := estimateTokens (stringifyGoal g),
    modelName := geminiModelName, success := true, errorMessage := none }

/-- The trace of `handleEmptyInput`: the sentinel is returned, one
success-flagged record is logged, and the gateway is never touched. -/
def emptyInputTrace : RefineTrace :=
  { result := .goal emptySentinel, telemetry := [emptyInputRecord], attempts := 0,
    fetches := 0, delaysMs := [] }

/-- The trace of the catch block: log one failure record, rethrow. -/
def failTrace (s : String) (rr : RetryResult) (err : PipelineError) : RefineTrace :=
  { result := .failed err, telemetry := [failureRecord s err],
    attempts := rr.attemptsMade, fetches := rr.fetches, delaysMs := rr.delaysMs }

/-- The guardrail check: a validated goal with `confidence_score < 4` is
returned as the `{error}` object — before the telemetry call, so no record
is logged on this path. -/
def guardrailStep (s prompt : String) (rr : RetryResult) (g : RefinedGoal) :
    RefineTrace :=
  if g.confidence_score < 4 then
    { result := .rejected guardrailMessage, telemetry := [],
      attempts := rr.attemptsMade, fetches := rr.fetches, delaysMs := rr.delaysMs }
  else
    { result := .goal g, telemetry := [successRecord s prompt g],
      attempts := rr.attemptsMade, fetches := rr.fetches, delaysMs := rr.delaysMs }

/-- The validation stage: a schema violation raises a `ZodError` (caught
by the catch block); a validated goal goes to the guardrail. -/
def afterValidate (s prompt : String) (rr : RetryResult)
    (vr : Except (List String) RefinedGoal) : RefineTrace :=
  match vr with
  | .error issues => failTrace s rr (.validationError issues)
  | .ok g => guardrailStep s prompt rr g

/-- The parse stage: a parse error is caught by the catch block; a decoded
value goes to the validator. -/
def afterParse (s prompt : String) (rr : RetryResult)
    (pr : Except String Json) : RefineTrace :=
  match pr with
  | .error e => failTrace s rr (.parseError e)
  | .ok j => afterValidate s prompt rr (goalSchemaParse j)

/-- The gateway-call stage: a retry-loop error is caught by the catch
block; a response goes to parsing. -/
def afterCall (s prompt : String) (rr : RetryResult)
    (cr : Except String ApiResponse) : RefineTrace :=
  match cr with
  | .error e => failTrace s rr (.apiError e)
  | .ok resp => afterParse s prompt rr (parseResponse resp)

/-- The stages of `refineGoal`'s `try` block after the retry loop
finished: parse the response, validate it, apply the guardrail; any raised
error lands in the catch block. -/
def afterRetry (s prompt : String) (rr : RetryResult) : RefineTrace :=
  afterCall s prompt rr rr.result

/-- The `try` block of `refineGoal` for a non-empty input `s`. -/
def refineGoalBody (env : Env) (s : String) : RefineTrace :=
  afterRetry s (buildPrompt s)
    (callGeminiAPIWithRetry env (buildRequestBody (buildPrompt s)) 3)

/-- `GeminiService.refineGoal`. -/
def refineGoal (env : Env) (input : GoalInput) : RefineTrace :=
  if shortCircuits input then emptyInputTrace
  else refineGoalBody env (inputText input)

/-! ## Concrete probe data (environments and payloads used by the
verification instances) -/

/-- A schema-valid model payload with the given confidence score. -/
def goalPayload (c : Int) : String :=
  "\x7b\"refined_goal\":\"Learn piano\",\"key_results\":[\"a\",\"b\",\"c\"],\"confidence_score\":" ++
  toString c ++ "\x7d"

/-- An environment whose endpoint always answers with a schema-valid goal
of the given confidence. -/
def probeEnv (c : Int) : Env :=
  ⟨some "test-key", fun _ _ => .ok (mkEnvelope (goalPayload c))⟩

/-- The goal delivered by a trace, defaulting to the sentinel. -/
def resultGoalD (t : RefineTrace) : RefinedGoal :=
  match t.result with
  | .goal g => g
  | _ => emptySentinel

/-- The decoded value of the probe payload with confidence `c`. -/
def parsedJ (c : Int) : Json :=
  match parseResponse (mkEnvelope (goalPayload c)) with
  | .ok j => j
  | .error _ => .null

/-- The validated goal of the probe payload with confidence `c`. -/
def parsedG (c : Int) : RefinedGoal :=
  match goalSchemaParse (parsedJ c) with
  | .ok g => g
  | .error _ => emptySentinel

/-- An environment with no credential configured. -/
def noKeyEnv : Env :=
  ⟨none, fun _ _ => .ok (mkEnvelope (goalPayload 7))⟩

/-- An environment whose endpoint fails every attempt with a distinct
transport error. -/
def flakyEnv : Env :=
  ⟨some "k", fun _ i => .networkError ("boom " ++ toString i)⟩

/-- A payload violating several schema constraints at once: empty
`refined_goal`, two key results one of which is empty, non-integral
confidence above the maximum. -/
def badPayload : String :=
  "\x7b\"refined_goal\":\"\",\"key_results\":[\"a\",\"\"],\"confidence_score\":11.5\x7d"

/-- An environment whose endpoint answers with `badPayload`. -/
def badEnv : Env :=
  ⟨some "k", fun _ _ => .ok (mkEnvelope badPayload)⟩

/-- The decoded bad payload. -/
def badJ : Json :=
  match parseResponse (mkEnvelope badPayload) with
  | .ok j => j
  | .error _ => .null

/-- The (non-integral) confidence value of the bad payload. -/
def badScore : ℚ :=
  match fieldOf badJ "confidence_score" with
  | some (.num q) => q
  | _ => 0

/-- The issue list of the bad payload. -/
def badIssues : List String :=
  match goalSchemaParse badJ with
  | .error issues => issues
  | .ok _ => []

/-! ## Soundness of the schema validator -/

/-- An empty `flatMap` means every element maps to the empty list. -/
lemma flatMap_nil_forall {α β : Type} {f : α → List β} :
    ∀ {xs : List α}, xs.flatMap f = [] → ∀ x ∈ xs, f x = [] := by
  intro xs
  induction xs with
  | nil => intro _ x hx; cases hx
  | cons a l ih =>
    intro h x hx
    rw [List.flatMap_cons, List.append_eq_nil] at h
    rcases List.mem_cons.mp hx with rfl | hx'
    · exact h.1
    · exact ih h.2 x hx'

/-- A value whose `refined_goal` field schema raises no issue is a
non-empty string. -/
lemma refinedGoalIssues_nil {v : Json} (h : refinedGoalIssues v = []) :
    ∃ s : String, v = .str s ∧ 1 ≤ s.length := by
  cases v with
  | str s =>
    refine ⟨s, rfl, ?_⟩
    by_contra hlen
    have hz : s.length = 0 := by omega
    simp [refinedGoalIssues, hz] at h
  | _ => simp [refinedGoalIssues] at h

/-- A value whose `key_results` field schema raises no issue is an array
of 3–5 non-empty strings. -/
lemma keyResultsIssues_nil {v : Json} (h : keyResultsIssues v = []) :
    ∃ xs : List Json, v = .arr xs ∧ 3 ≤ xs.length ∧ xs.length ≤ 5 ∧
      ∀ x ∈ xs, ∃ s : String, x = .str s ∧ 1 ≤ s.length := by
  cases v with
  | arr xs =>
    refine ⟨xs, rfl, ?_, ?_, ?_⟩
    · by_contra hlt
      simp only [keyResultsIssues, List.append_eq_nil] at h
      rcases h with ⟨⟨h1, _⟩, _⟩
      rw [if_pos (by omega)] at h1
      exact absurd h1 (by simp)
    · by_contra hgt
      simp only [keyResultsIssues, List.append_eq_nil] at h
      rcases h with ⟨⟨_, h2⟩, _⟩
      rw [if_pos (by omega)] at h2
      exact absurd h2 (by simp)
    · intro x hx
      simp only [keyResultsIssues, List.append_eq_nil] at h
      rcases h with ⟨_, h3⟩
      have hfx : (match x with
          | .str s => if s.length = 0 then ["Each key result must be a non-empty string"] else []
          | other => ["Expected string, received " ++ other.typeName]) = [] := by
        exact flatMap_nil_forall h3 x hx
      cases x with
      | str s =>
        refine ⟨s, rfl, ?_⟩
        by_contra hlen
        have hz : s.length = 0 := by omega
        simp [hz] at hfx
      | _ => simp at hfx
  | _ => simp [keyResultsIssues] at h

/-- A value whose `confidence_score` field schema raises no issue is an
integral number in `[1, 10]`. -/
lemma confidenceIssues_nil {v : Json} (h : confidenceIssues v = []) :
    ∃ q : ℚ, v = .num q ∧ q.den = 1 ∧ 1 ≤ q.num ∧ q.num ≤ 10 := by
  cases v with
  | num q =>
    simp only [confidenceIssues, List.append_eq_nil] at h
    rcases h with ⟨⟨hden, hmin⟩, hmax⟩
    have hd : q.den = 1 := by
      by_contra hd
      rw [if_neg hd] at hden
      exact absurd hden (by simp)
    have hq : (q.num : ℚ) = q := Rat.coe_int_num_of_den_eq_one hd
    have h1 : ¬ q < 1 := by
      intro hlt
      rw [if_pos hlt] at hmin
      exact absurd hmin (by simp)
    have h10 : ¬ q > 10 := by
      intro hgt
      rw [if_pos hgt] at hmax
      exact absurd hmax (by simp)
    refine ⟨q, rfl, hd, ?_, ?_⟩
    · have : (1 : ℚ) ≤ (q.num : ℚ) := by rw [hq]; exact not_lt.mp h1
      exact_mod_cast this
    · have : (q.num : ℚ) ≤ (10 : ℚ) := by rw [hq]; exact not_lt.mp h10
      exact_mod_cast this
  | _ => simp [confidenceIssues] at h

/-- Validator soundness: anything `goalSchema.parse` returns satisfies
every schema constraint. -/
lemma goalSchemaParse_sound {j : Json} {g : RefinedGoal}
    (h : goalSchemaParse j = .ok g) : checkGoalSchema g = true := by
  unfold goalSchemaParse at h
  cases hiss : goalIssues j with
  | cons a l => rw [hiss] at h; exact absurd h (by simp)
  | nil =>
    rw [hiss] at h
    have hg : extractGoal j = g := by
      injection h
    subst hg
    cases j with
    | obj fields =>
      simp only [goalIssues, List.append_eq_nil] at hiss
      rcases hiss with ⟨⟨hA, hB⟩, hC⟩
      cases hrg : lookupField fields "refined_goal" with
      | none => rw [hrg] at hA; exact absurd hA (by simp)
      | some vrg =>
        rw [hrg] at hA
        cases hkr : lookupField fields "key_results" with
        | none => rw [hkr] at hB; exact absurd hB (by simp)
        | some vkr =>
          rw [hkr] at hB
          cases hcs : lookupField fields "confidence_score" with
          | none => rw [hcs] at hC; exact absurd hC (by simp)
          | some vcs =>
            rw [hcs] at hC
            rcases refinedGoalIssues_nil hA with ⟨s, rfl, hslen⟩
            rcases keyResultsIssues_nil hB with ⟨xs, rfl, hmin, hmax, helems⟩
            rcases confidenceIssues_nil hC with ⟨q, rfl, _, hq1, hq10⟩
            simp only [checkGoalSchema, extractGoal, fieldOf, hrg, hkr, hcs,
              Bool.and_eq_true, decide_eq_true_eq, List.all_eq_true,
              List.length_map]
            refine ⟨⟨⟨⟨⟨hslen, hmin⟩, hmax⟩, ?_⟩, hq1⟩, hq10⟩
            intro y hy
            rcases List.mem_map.mp hy with ⟨x, hx, rfl⟩
            rcases helems x hx with ⟨t, rfl, htlen⟩
            simpa [Json.strD] using htlen
    | _ => simp [goalIssues] at hiss

/-! ## Case analysis on the post-retry stages -/

/-- A goal object delivered by the post-retry stages comes out of the
validator and passed the guardrail. -/
lemma afterRetry_goal {s p : String} {rr : RetryResult} {g : RefinedGoal}
    (h : (afterRetry s p rr).result = .goal g) :
    ∃ resp j, rr.result = .ok resp ∧ parseResponse resp = .ok j ∧
      goalSchemaParse j = .ok g ∧ 4 ≤ g.confidence_score := by
  unfold afterRetry at h
  cases hr : rr.result with
  | error e =>
    rw [hr] at h
    simp [afterCall, failTrace] at h
  | ok resp =>
    rw [hr] at h
    simp only [afterCall] at h
    cases hp : parseResponse resp with
    | error e =>
      rw [hp] at h
      simp [afterParse, failTrace] at h
    | ok j =>
      rw [hp] at h
      simp only [afterParse] at h
      cases hv : goalSchemaParse j with
      | error issues =>
        rw [hv] at h
        simp [afterValidate, failTrace] at h
      | ok g' =>
        rw [hv] at h
        simp only [afterValidate, guardrailStep] at h
        by_cases hc : g'.confidence_score < 4
        · rw [if_pos hc] at h
          simp at h
        · rw [if_neg hc] at h
          simp at h
          subst h
          exact ⟨resp, j, rfl, hp, hv, by omega⟩

/-- The telemetry emitted by the post-retry stages, by outcome: one
success-flagged record when a goal is returned, none on the guardrail
rejection, one failure-flagged record when an error is raised. -/
lemma afterRetry_telemetry (s p : String) (rr : RetryResult) :
    (∀ g, (afterRetry s p rr).result = .goal g →
      (afterRetry s p rr).telemetry = [successRecord s p g]) ∧
    (∀ m, (afterRetry s p rr).result = .rejected m →
      (afterRetry s p rr).telemetry = [] ∧ m = guardrailMessage) ∧
    (∀ e, (afterRetry s p rr).result = .failed e →
      (afterRetry s p rr).telemetry = [failureRecord s e]) := by
  unfold afterRetry
  cases hr : rr.result with
  | error e =>
    simp [afterCall, failTrace]
  | ok resp =>
    simp only [afterCall]
    cases hp : parseResponse resp with
    | error e =>
      simp [afterParse, failTrace]
    | ok j =>
      simp only [afterParse]
      cases hv : goalSchemaParse j with
      | error issues =>
        simp [afterValidate, failTrace]
      | ok g' =>
        simp only [afterValidate, guardrailStep]
        by_cases hc : g'.confidence_score < 4
        · rw [if_pos hc]
          simp
        · rw [if_neg hc]
          simp

/-- The loop effects (attempt count, fetches, delays) of the post-retry
stages are those of the retry loop. -/
lemma afterRetry_effects (s p : String) (rr : RetryResult) :
    (afterRetry s p rr).attempts = rr.attemptsMade ∧
    (afterRetry s p rr).fetches = rr.fetches ∧
    (afterRetry s p rr).delaysMs = rr.delaysMs := by
  unfold afterRetry
  cases hr : rr.result with
  | error e =>
    simp [afterCall, failTrace]
  | ok resp =>
    simp only [afterCall]
    cases hp : parseResponse resp with
    | error e =>
      simp [afterParse, failTrace]
    | ok j =>
      simp only [afterParse]
      cases hv : goalSchemaParse j with
      | error issues =>
        simp [afterValidate, failTrace]
      | ok g' =>
        simp only [afterValidate, guardrailStep]
        by_cases hc : g'.confidence_score < 4
        · rw [if_pos hc]
          exact ⟨rfl, rfl, rfl⟩
        · rw [if_neg hc]
          exact ⟨rfl, rfl, rfl⟩

/-! ## Concrete probe data for witnesses -/

/-! ## Claims -/

/-- C1: every valid RefinedGoal instance produced by the pipeline
satisfies all schema constraints — `confidence_score` is an integer in
`[1, 10]`, `key_results` has 3–5 elements, `refined_goal` and every key
result are non-empty — and no partially-valid instance passes
`goalSchema.parse`; this holds both for everything the validator lets
through and for every goal object `refineGoal` delivers on the
non-short-circuit path. -/
theorem validated_goal_satisfies_schema :
    (∀ (j : Json) (g : RefinedGoal), goalSchemaParse j = .ok g →
      checkGoalSchema g = true) ∧
    (∀ (env : Env) (inp : GoalInput) (g : RefinedGoal),
      shortCircuits inp = false → (refineGoal env inp).result = .goal g →
      checkGoalSchema g = true) := by
  constructor
  · intro j g h
    exact goalSchemaParse_sound h
  · intro env inp g hsc h
    unfold refineGoal at h
    rw [if_neg (by simp [hsc])] at h
    unfold refineGoalBody at h
    rcases afterRetry_goal h with ⟨resp, j, _, _, hv, _⟩
    exact goalSchemaParse_sound hv

/-- Witness for C1: a concrete schema-valid decoded object passes the
validator and the result checks out, and a concrete pipeline run delivers
a goal that checks out. -/
theorem validated_goal_satisfies_schema_witness :
    checkGoalSchema ⟨"Learn piano", ["a", "b", "c"], 5⟩ = true ∧
    checkGoalSchema (resultGoalD (refineGoal (probeEnv 7) (.text "learn piano"))) = true :=
  ⟨validated_goal_satisfies_schema.1
      (Json.obj [("refined_goal", .str "Learn piano"),
                 ("key_results", .arr [.str "a", .str "b", .str "c"]),
                 ("confidence_score", .num 5)])
      ⟨"Learn piano", ["a", "b", "c"], 5⟩ (by decide),
   validated_goal_satisfies_schema.2 (probeEnv 7) (.text "learn piano")
      (resultGoalD (refineGoal (probeEnv 7) (.text "learn piano")))
      (by decide) (by decide)⟩

/-- C5: an absent, non-string, or whitespace-only input short-circuits to
the sentinel goal (`"No goal provided"`, no key results, confidence 0)
without any gateway attempt or network fetch. -/
theorem empty_input_short_circuit (env : Env) (inp : GoalInput)
    (h : shortCircuits inp = true) :
    (refineGoal env inp).result =
      .goal { refined_goal := "No goal provided", key_results := [],
              confidence_score := 0 } ∧
    (refineGoal env inp).attempts = 0 ∧ (refineGoal env inp).fetches = 0 := by
  unfold refineGoal
  rw [if_pos h]
  exact ⟨rfl, rfl, rfl⟩

/-- Witness for C5: the absent input, a non-string input, and a
whitespace-only string all short-circuit. -/
theorem empty_input_short_circuit_witness :
    ((refineGoal (probeEnv 7) .missing).result =
        .goal { refined_goal := "No goal provided", key_results := [],
                confidence_score := 0 } ∧
      (refineGoal (probeEnv 7) .missing).attempts = 0 ∧
      (refineGoal (probeEnv 7) .missing).fetches = 0) ∧
    ((refineGoal (probeEnv 7) .nonText).result =
        .goal { refined_goal := "No goal provided", key_results := [],
                confidence_score := 0 } ∧
      (refineGoal (probeEnv 7) .nonText).attempts = 0 ∧
      (refineGoal (probeEnv 7) .nonText).fetches = 0) ∧
    ((refineGoal (probeEnv 7) (.text " \t ")).result =
        .goal { refined_goal := "No goal provided", key_results := [],
                confidence_score := 0 } ∧
      (refineGoal (probeEnv 7) (.text " \t ")).attempts = 0 ∧
      (refineGoal (probeEnv 7) (.text " \t ")).fetches = 0) :=
  ⟨empty_input_short_circuit (probeEnv 7) .missing (by decide),
   empty_input_short_circuit (probeEnv 7) .nonText (by decide),
   empty_input_short_circuit (probeEnv 7) (.text " \t ") (by decide)⟩

/-- C10: a goal object delivered by `refineGoal` is either the
empty-input sentinel (whose confidence is 0) or has passed the guardrail,
so its confidence score is at least 4 — strictly above the schema's own
minimum of 1; no goal payload with score 1, 2 or 3 is ever delivered. -/
theorem delivered_goal_confidence_ge_four (env : Env) (inp : GoalInput)
    (g : RefinedGoal) (h : (refineGoal env inp).result = .goal g) :
    (g = emptySentinel ∨ 4 ≤ g.confidence_score) ∧
    emptySentinel.confidence_score = 0 := by
  refine ⟨?_, rfl⟩
  by_cases hsc : shortCircuits inp = true
  · unfold refineGoal at h
    rw [if_pos hsc] at h
    left
    have h' : PipelineResult.goal emptySentinel = .goal g := h
    injection h' with h''
    exact h''.symm
  · unfold refineGoal at h
    rw [if_neg hsc] at h
    unfold refineGoalBody at h
    rcases afterRetry_goal h with ⟨_, _, _, _, _, hconf⟩
    right
    exact hconf

/-- Witness for C10: a run whose model response has confidence 7 delivers
a goal with confidence at least 4. -/
theorem delivered_goal_confidence_ge_four_witness :
    ((resultGoalD (refineGoal (probeEnv 7) (.text "learn piano")) = emptySentinel ∨
      4 ≤ (resultGoalD (refineGoal (probeEnv 7) (.text "learn piano"))).confidence_score) ∧
     emptySentinel.confidence_score = 0) :=
  delivered_goal_confidence_ge_four (probeEnv 7) (.text "learn piano")
    (resultGoalD (refineGoal (probeEnv 7) (.text "learn piano"))) (by decide)

/-- C2: for a non-short-circuited input whose model response is
schema-valid with goal `g`, a confidence score below 4 produces the
rejected outcome `{error: "Input does not appear to be a valid goal."}`
(carrying no goal payload, by the shape of `PipelineResult.rejected`), and
a score of at least 4 produces the accepted outcome delivering `g`. -/
theorem guardrail_threshold (env : Env) (s : String)
    (hsc : shortCircuits (.text s) = false)
    (resp : ApiResponse) (j : Json) (g : RefinedGoal)
    (hr : (callGeminiAPIWithRetry env (buildRequestBody (buildPrompt s)) 3).result = .ok resp)
    (hp : parseResponse resp = .ok j)
    (hv : goalSchemaParse j = .ok g) :
    (g.confidence_score < 4 →
      (refineGoal env (.text s)).result =
        .rejected "Input does not appear to be a valid goal.") ∧
    (4 ≤ g.confidence_score →
      (refineGoal env (.text s)).result = .goal g) := by
  unfold refineGoal
  rw [if_neg (by simp [hsc])]
  unfold refineGoalBody inputText afterRetry
  rw [hr]
  simp only [afterCall]
  rw [hp]
  simp only [afterParse]
  rw [hv]
  simp only [afterValidate, guardrailStep]
  constructor
  · intro hc
    rw [if_pos hc]
    rfl
  · intro hge
    rw [if_neg (by omega)]


/-- Witness for C2: confidence 3 is rejected with the fixed message;
confidence 4 is accepted. -/
theorem guardrail_threshold_witness :
    (refineGoal (probeEnv 3) (.text "learn piano")).result =
      .rejected "Input does not appear to be a valid goal." ∧
    (refineGoal (probeEnv 4) (.text "learn piano")).result = .goal (parsedG 4) :=
  ⟨(guardrail_threshold (probeEnv 3) "learn piano" (by decide)
      (mkEnvelope (goalPayload 3)) (parsedJ 3) (parsedG 3)
      (by decide) (by rfl) (by rfl)).1 (by decide),
   (guardrail_threshold (probeEnv 4) "learn piano" (by decide)
      (mkEnvelope (goalPayload 4)) (parsedJ 4) (parsedG 4)
      (by decide) (by rfl) (by rfl)).2 (by decide)⟩

/-- C3 (amended): on a non-short-circuited invocation, exactly one
telemetry record is emitted when the outcome is Accepted (flagged
`success = true`) and when the outcome is Failed (flagged
`success = false`); on a guardrail-Rejected outcome the pipeline returns
before the telemetry call, so no record is emitted. -/
theorem telemetry_per_outcome (env : Env) (inp : GoalInput)
    (hsc : shortCircuits inp = false) :
    (∀ g, (refineGoal env inp).result = .goal g →
      (refineGoal env inp).telemetry.length = 1 ∧
      ∀ r ∈ (refineGoal env inp).telemetry, r.success = true) ∧
    (∀ m, (refineGoal env inp).result = .rejected m →
      (refineGoal env inp).telemetry = []) ∧
    (∀ e, (refineGoal env inp).result = .failed e →
      (refineGoal env inp).telemetry.length = 1 ∧
      ∀ r ∈ (refineGoal env inp).telemetry, r.success = false) := by
  unfold refineGoal
  rw [if_neg (by simp [hsc])]
  unfold refineGoalBody
  rcases afterRetry_telemetry (inputText inp) (buildPrompt (inputText inp))
      (callGeminiAPIWithRetry env (buildRequestBody (buildPrompt (inputText inp))) 3)
    with ⟨hgoal, hrej, hfail⟩
  refine ⟨?_, ?_, ?_⟩
  · intro g hg
    rw [hgoal g hg]
    exact ⟨rfl, by simp [successRecord]⟩
  · intro m hm
    exact (hrej m hm).1
  · intro e he
    rw [hfail e he]
    exact ⟨rfl, by simp [failureRecord]⟩

/-- Witness for the amended C3: a failed run emits exactly one
failure-flagged record. -/
theorem telemetry_per_outcome_witness :
    (refineGoal (⟨some "k", fun _ _ => .networkError "down"⟩ : Env)
        (.text "learn piano")).telemetry.length = 1 ∧
    ∀ r ∈ (refineGoal (⟨some "k", fun _ _ => .networkError "down"⟩ : Env)
        (.text "learn piano")).telemetry, r.success = false :=
  (telemetry_per_outcome (⟨some "k", fun _ _ => .networkError "down"⟩ : Env)
      (.text "learn piano") (by decide)).2.2
    (.apiError "Failed to call Gemini API: down") (by decide)

/-- Counterexample to C3 as stated: a schema-valid response with
confidence 3 on a non-short-circuited input yields the guardrail-Rejected
outcome, yet zero telemetry records are emitted — not one `success = true`
record as claimed (the source returns the `{error}` object before its
telemetry call). -/
theorem telemetry_rejected_counterexample :
    shortCircuits (.text "learn piano") = false ∧
    (refineGoal (probeEnv 3) (.text "learn piano")).result =
      .rejected "Input does not appear to be a valid goal." ∧
    (refineGoal (probeEnv 3) (.text "learn piano")).telemetry = [] ∧
    ¬ (refineGoal (probeEnv 3) (.text "learn piano")).telemetry.length = 1 := by
  refine ⟨by decide, by decide, by decide, by decide⟩

/-- With a falsy credential, every iteration of the retry loop raises the
configuration error without fetching, so the loop runs all `remaining`
iterations with a 4-second delay between consecutive ones. -/
lemma retryGo_missing_key (env : Env) (body : RequestBody)
    (hkey : keyPresent env.apiKey = false) :
    ∀ r attempt,
      retryGo env body attempt (r + 1) =
        ⟨.error "Failed to call Gemini API: GOOGLE_API_KEY environment variable is not set",
         r + 1, 0, List.replicate r 4000⟩ := by
  have hcall : ∀ fo, callGeminiAPIResult env.apiKey fo =
      .error "Failed to call Gemini API: GOOGLE_API_KEY environment variable is not set" := by
    intro fo
    unfold callGeminiAPIResult
    rw [if_pos hkey]
  have hfc : fetchCount env.apiKey = 0 := by
    unfold fetchCount
    rw [hkey]
    rfl
  intro r
  induction r with
  | zero =>
    intro attempt
    simp only [retryGo, hcall, hfc]
    rfl
  | succ n ih =>
    intro attempt
    have hstep : ∀ a m, retryGo env body a (m + 1 + 1) =
        ⟨(retryGo env body (a + 1) (m + 1)).result,
         (retryGo env body (a + 1) (m + 1)).attemptsMade + 1,
         (retryGo env body (a + 1) (m + 1)).fetches + fetchCount env.apiKey,
         4000 :: (retryGo env body (a + 1) (m + 1)).delaysMs⟩ := by
      intro a m
      simp only [retryGo, hcall, if_neg (by omega : ¬ m + 1 = 0)]
    rw [hstep attempt n, ih (attempt + 1)]
    simp [hfc, List.replicate_succ]

/-- C4 (amended): a missing (or empty) credential makes every attempt
raise the configuration error before any network fetch — zero fetches ever
happen — but the retry wrapper does not distinguish it from a transient
failure: the loop still runs all 3 attempts with two 4-second backoff
delays and then surfaces the configuration error as the pipeline
failure. -/
theorem missing_credential_behaviour (env : Env) (inp : GoalInput)
    (hkey : keyPresent env.apiKey = false)
    (hsc : shortCircuits inp = false) :
    (refineGoal env inp).result = .failed (.apiError
      "Failed to call Gemini API: GOOGLE_API_KEY environment variable is not set") ∧
    (refineGoal env inp).fetches = 0 ∧
    (refineGoal env inp).attempts = 3 ∧
    (refineGoal env inp).delaysMs = [4000, 4000] := by
  unfold refineGoal
  rw [if_neg (by simp [hsc])]
  unfold refineGoalBody
  have hloop : callGeminiAPIWithRetry env
      (buildRequestBody (buildPrompt (inputText inp))) 3 =
      ⟨.error "Failed to call Gemini API: GOOGLE_API_KEY environment variable is not set",
       3, 0, [4000, 4000]⟩ :=
    retryGo_missing_key env (buildRequestBody (buildPrompt (inputText inp))) hkey 2 1
  rw [hloop]
  unfold afterRetry
  simp [afterCall, failTrace]

/-- Counterexample to C4 as stated: with the credential missing the
configuration error is indeed raised before any network fetch (zero
fetches), but it IS retried — the loop runs 3 attempts and awaits two
4-second backoff delays, contradicting `no retry attempts and no backoff
delays occur for a missing credential`. -/
theorem missing_credential_counterexample :
    (refineGoal noKeyEnv (.text "learn piano")).result = .failed (.apiError
      "Failed to call Gemini API: GOOGLE_API_KEY environment variable is not set") ∧
    (refineGoal noKeyEnv (.text "learn piano")).fetches = 0 ∧
    (refineGoal noKeyEnv (.text "learn piano")).attempts = 3 ∧
    (refineGoal noKeyEnv (.text "learn piano")).delaysMs = [4000, 4000] ∧
    ¬ ((refineGoal noKeyEnv (.text "learn piano")).attempts ≤ 1 ∧
       (refineGoal noKeyEnv (.text "learn piano")).delaysMs = []) := by
  refine ⟨by decide, by decide, by decide, by decide, by decide⟩

/-- Witness for the amended C4. -/
theorem missing_credential_behaviour_witness :
    (refineGoal (⟨some "", fun _ _ => .networkError "unused"⟩ : Env)
        (.text "ship the feature")).result = .failed (.apiError
      "Failed to call Gemini API: GOOGLE_API_KEY environment variable is not set") ∧
    (refineGoal (⟨some "", fun _ _ => .networkError "unused"⟩ : Env)
        (.text "ship the feature")).fetches = 0 ∧
    (refineGoal (⟨some "", fun _ _ => .networkError "unused"⟩ : Env)
        (.text "ship the feature")).attempts = 3 ∧
    (refineGoal (⟨some "", fun _ _ => .networkError "unused"⟩ : Env)
        (.text "ship the feature")).delaysMs = [4000, 4000] :=
  missing_credential_behaviour (⟨some "", fun _ _ => .networkError "unused"⟩ : Env)
    (.text "ship the feature") (by decide) (by decide)

/-- C6: the retry loop makes at most 3 attempts with a fixed (non-growing)
4-second delay between consecutive attempts; any failing attempt —
whatever its cause — is swallowed as long as budget remains, a first
success at attempt `k` returns that attempt's response after `k` attempts
and `k − 1` delays, and when all 3 attempts fail the loop surfaces exactly
the final attempt's error. -/
theorem retry_loop_contract (env : Env) (body : RequestBody) :
    ((callGeminiAPIWithRetry env body 3).attemptsMade ≤ 3 ∧
     (callGeminiAPIWithRetry env body 3).delaysMs =
       List.replicate ((callGeminiAPIWithRetry env body 3).attemptsMade - 1) 4000) ∧
    (∀ b1, attemptResult env body 1 = .ok b1 →
      callGeminiAPIWithRetry env body 3 =
        ⟨.ok b1, 1, fetchCount env.apiKey, []⟩) ∧
    (∀ e1 b2, attemptResult env body 1 = .error e1 →
      attemptResult env body 2 = .ok b2 →
      callGeminiAPIWithRetry env body 3 =
        ⟨.ok b2, 2, fetchCount env.apiKey + fetchCount env.apiKey, [4000]⟩) ∧
    (∀ e1 e2 b3, attemptResult env body 1 = .error e1 →
      attemptResult env body 2 = .error e2 →
      attemptResult env body 3 = .ok b3 →
      callGeminiAPIWithRetry env body 3 =
        ⟨.ok b3, 3, fetchCount env.apiKey + fetchCount env.apiKey + fetchCount env.apiKey,
         [4000, 4000]⟩) ∧
    (∀ e1 e2 e3, attemptResult env body 1 = .error e1 →
      attemptResult env body 2 = .error e2 →
      attemptResult env body 3 = .error e3 →
      callGeminiAPIWithRetry env body 3 =
        ⟨.error e3, 3, fetchCount env.apiKey + fetchCount env.apiKey + fetchCount env.apiKey,
         [4000, 4000]⟩) := by
  have step1 : ∀ b1, attemptResult env body 1 = .ok b1 →
      callGeminiAPIWithRetry env body 3 = ⟨.ok b1, 1, fetchCount env.apiKey, []⟩ := by
    intro b1 h1
    unfold callGeminiAPIWithRetry
    unfold attemptResult at h1
    simp only [retryGo, h1]
  have step2 : ∀ e1 b2, attemptResult env body 1 = .error e1 →
      attemptResult env body 2 = .ok b2 →
      callGeminiAPIWithRetry env body 3 =
        ⟨.ok b2, 2, fetchCount env.apiKey + fetchCount env.apiKey, [4000]⟩ := by
    intro e1 b2 h1 h2
    unfold callGeminiAPIWithRetry
    unfold attemptResult at h1 h2
    simp only [retryGo, h1, h2]
    norm_num
  have step3 : ∀ e1 e2 b3, attemptResult env body 1 = .error e1 →
      attemptResult env body 2 = .error e2 →
      attemptResult env body 3 = .ok b3 →
      callGeminiAPIWithRetry env body 3 =
        ⟨.ok b3, 3, fetchCount env.apiKey + fetchCount env.apiKey + fetchCount env.apiKey,
         [4000, 4000]⟩ := by
    intro e1 e2 b3 h1 h2 h3
    unfold callGeminiAPIWithRetry
    unfold attemptResult at h1 h2 h3
    simp only [retryGo, h1, h2, h3]
    norm_num
  have step4 : ∀ e1 e2 e3, attemptResult env body 1 = .error e1 →
      attemptResult env body 2 = .error e2 →
      attemptResult env body 3 = .error e3 →
      callGeminiAPIWithRetry env body 3 =
        ⟨.error e3, 3, fetchCount env.apiKey + fetchCount env.apiKey + fetchCount env.apiKey,
         [4000, 4000]⟩ := by
    intro e1 e2 e3 h1 h2 h3
    unfold callGeminiAPIWithRetry
    unfold attemptResult at h1 h2 h3
    simp only [retryGo, h1, h2, h3]
    norm_num
  refine ⟨?_, step1, step2, step3, step4⟩
  cases h1 : attemptResult env body 1 with
  | ok b1 =>
    rw [step1 b1 h1]
    exact ⟨by norm_num, rfl⟩
  | error e1 =>
    cases h2 : attemptResult env body 2 with
    | ok b2 =>
      rw [step2 e1 b2 h1 h2]
      exact ⟨by norm_num, rfl⟩
    | error e2 =>
      cases h3 : attemptResult env body 3 with
      | ok b3 =>
        rw [step3 e1 e2 b3 h1 h2 h3]
        exact ⟨by norm_num, rfl⟩
      | error e3 =>
        rw [step4 e1 e2 e3 h1 h2 h3]
        exact ⟨by norm_num, rfl⟩

/-- Witness for C6: with every attempt failing, the loop runs 3 attempts,
waits the two fixed 4-second delays, and surfaces the third attempt's
error. -/
theorem retry_loop_contract_witness :
    callGeminiAPIWithRetry flakyEnv (buildRequestBody (buildPrompt "x")) 3 =
      ⟨.error "Failed to call Gemini API: boom 3", 3,
       fetchCount flakyEnv.apiKey + fetchCount flakyEnv.apiKey + fetchCount flakyEnv.apiKey,
       [4000, 4000]⟩ :=
  (retry_loop_contract flakyEnv (buildRequestBody (buildPrompt "x"))).2.2.2.2
    "Failed to call Gemini API: boom 1" "Failed to call Gemini API: boom 2"
    "Failed to call Gemini API: boom 3" (by decide) (by decide) (by decide)

/-- C9 (amended): the delivered value is always exactly one of a goal
object, the guardrail-rejection `{error}` (carrying no goal data and with
the fixed message), or a raised pipeline failure; a delivered goal object
is either the short-circuit sentinel, or — on the non-short-circuit path —
a RefinedGoal satisfying every schema constraint. -/
theorem pipeline_outcome_shapes (env : Env) (inp : GoalInput) :
    ((∃ g, (refineGoal env inp).result = .goal g) ∨
     (∃ m, (refineGoal env inp).result = .rejected m) ∨
     (∃ e, (refineGoal env inp).result = .failed e)) ∧
    (∀ g, (refineGoal env inp).result = .goal g →
      (shortCircuits inp = true ∧ g = emptySentinel) ∨
      (shortCircuits inp = false ∧ checkGoalSchema g = true)) ∧
    (∀ m, (refineGoal env inp).result = .rejected m → m = guardrailMessage) := by
  refine ⟨?_, ?_, ?_⟩
  · cases h : (refineGoal env inp).result with
    | goal g => exact Or.inl ⟨g, rfl⟩
    | rejected m => exact Or.inr (Or.inl ⟨m, rfl⟩)
    | failed e => exact Or.inr (Or.inr ⟨e, rfl⟩)
  · intro g hg
    by_cases hsc : shortCircuits inp = true
    · left
      refine ⟨hsc, ?_⟩
      unfold refineGoal at hg
      rw [if_pos hsc] at hg
      have h' : PipelineResult.goal emptySentinel = .goal g := hg
      injection h' with h''
      exact h''.symm
    · right
      refine ⟨by simpa using hsc, ?_⟩
      unfold refineGoal at hg
      rw [if_neg hsc] at hg
      unfold refineGoalBody at hg
      rcases afterRetry_goal hg with ⟨_, _, _, _, hv, _⟩
      exact goalSchemaParse_sound hv
  · intro m hm
    by_cases hsc : shortCircuits inp = true
    · unfold refineGoal at hm
      rw [if_pos hsc] at hm
      exact absurd hm (by simp [emptyInputTrace])
    · unfold refineGoal at hm
      rw [if_neg hsc] at hm
      unfold refineGoalBody at hm
      exact ((afterRetry_telemetry _ _ _).2.1 m hm).2

/-- Witness for the amended C9: a concrete accepted run delivers a
schema-satisfying goal on the non-short-circuit path. -/
theorem pipeline_outcome_shapes_witness :
    (shortCircuits (.text "learn piano") = true ∧ parsedG 7 = emptySentinel) ∨
    (shortCircuits (.text "learn piano") = false ∧ checkGoalSchema (parsedG 7) = true) :=
  (pipeline_outcome_shapes (probeEnv 7) (.text "learn piano")).2.1 (parsedG 7) (by decide)

/-- Counterexample to C9 as stated: on empty input the caller receives the
sentinel goal object, which satisfies none of the three claimed shapes —
it is a goal payload, not a `{error}` object or a raised failure, yet it
violates the schema constraints (`key_results` empty, confidence 0). -/
theorem pipeline_outcome_shapes_counterexample :
    (refineGoal (probeEnv 7) .missing).result = .goal emptySentinel ∧
    checkGoalSchema emptySentinel = false := by
  refine ⟨by decide, by decide⟩

/-- A schema field looked up successfully comes from an object. -/
lemma fieldOf_obj {j : Json} {k : String} {v : Json} (h : fieldOf j k = some v) :
    ∃ fields, j = .obj fields ∧ lookupField fields k = some v := by
  cases j with
  | obj fields => exact ⟨fields, rfl, h⟩
  | null => simp [fieldOf] at h
  | bool b => simp [fieldOf] at h
  | num q => simp [fieldOf] at h
  | str s => simp [fieldOf] at h
  | arr xs => simp [fieldOf] at h

/-- The retry loop returns after one attempt when the first attempt
succeeds. -/
lemma retry_first_success (env : Env) (body : RequestBody) {b1 : ApiResponse}
    (h1 : attemptResult env body 1 = .ok b1) :
    callGeminiAPIWithRetry env body 3 = ⟨.ok b1, 1, fetchCount env.apiKey, []⟩ := by
  unfold callGeminiAPIWithRetry
  unfold attemptResult at h1
  simp only [retryGo, h1]

/-- C7: a `ZodError` raised by the validator enumerates every violated
constraint — each violated field constraint contributes its message to the
issue list, not just the first one encountered — and a validation failure
is never retried: when the first attempt already succeeded, the pipeline
fails with the enumerated issues after exactly one model call. -/
theorem validation_error_enumerates_all (j : Json) (issues : List String)
    (h : goalSchemaParse j = .error issues) :
    issues ≠ [] ∧
    (∀ s, fieldOf j "refined_goal" = some (.str s) → s.length = 0 →
      "refined_goal must be a non-empty string" ∈ issues) ∧
    (∀ xs, fieldOf j "key_results" = some (.arr xs) → xs.length < 3 →
      "key_results must have at least 3 items" ∈ issues) ∧
    (∀ xs, fieldOf j "key_results" = some (.arr xs) → 5 < xs.length →
      "key_results must have at most 5 items" ∈ issues) ∧
    (∀ xs s, fieldOf j "key_results" = some (.arr xs) → Json.str s ∈ xs →
      s.length = 0 → "Each key result must be a non-empty string" ∈ issues) ∧
    (∀ q, fieldOf j "confidence_score" = some (.num q) → q.den ≠ 1 →
      "Expected integer, received float" ∈ issues) ∧
    (∀ q, fieldOf j "confidence_score" = some (.num q) → q < 1 →
      "confidence_score must be at least 1" ∈ issues) ∧
    (∀ q, fieldOf j "confidence_score" = some (.num q) → 10 < q →
      "confidence_score must be at most 10" ∈ issues) ∧
    (∀ (env : Env) (s : String) (resp : ApiResponse),
      shortCircuits (.text s) = false →
      attemptResult env (buildRequestBody (buildPrompt s)) 1 = .ok resp →
      parseResponse resp = .ok j →
      (refineGoal env (.text s)).result = .failed (.validationError issues) ∧
      (refineGoal env (.text s)).attempts = 1) := by
  have key : issues = goalIssues j ∧ issues ≠ [] := by
    unfold goalSchemaParse at h
    cases hgi : goalIssues j with
    | nil =>
      rw [hgi] at h
      exact absurd h (by simp)
    | cons a l =>
      rw [hgi] at h
      have h' : (Except.error (a :: l) : Except (List String) RefinedGoal) =
          .error issues := h
      injection h' with h''
      exact ⟨h''.symm, by rw [← h'']; simp⟩
  rcases key with ⟨hiss, hne⟩
  subst hiss
  refine ⟨hne, ?_, ?_, ?_, ?_, ?_, ?_, ?_, ?_⟩
  · intro s hf hlen
    rcases fieldOf_obj hf with ⟨fields, rfl, hlk⟩
    simp only [goalIssues, hlk]
    refine List.mem_append_left _ (List.mem_append_left _ ?_)
    rw [refinedGoalIssues, if_pos hlen]
    simp
  · intro xs hf hlt
    rcases fieldOf_obj hf with ⟨fields, rfl, hlk⟩
    simp only [goalIssues, hlk]
    refine List.mem_append_left _ (List.mem_append_right _ ?_)
    rw [keyResultsIssues]
    refine List.mem_append_left _ (List.mem_append_left _ ?_)
    rw [if_pos hlt]
    simp
  · intro xs hf hgt
    rcases fieldOf_obj hf with ⟨fields, rfl, hlk⟩
    simp only [goalIssues, hlk]
    refine List.mem_append_left _ (List.mem_append_right _ ?_)
    rw [keyResultsIssues]
    refine List.mem_append_left _ (List.mem_append_right _ ?_)
    rw [if_pos hgt]
    simp
  · intro xs s hf hmem hlen
    rcases fieldOf_obj hf with ⟨fields, rfl, hlk⟩
    simp only [goalIssues, hlk]
    refine List.mem_append_left _ (List.mem_append_right _ ?_)
    rw [keyResultsIssues]
    refine List.mem_append_right _ ?_
    exact List.mem_flatMap.mpr ⟨.str s, hmem, by simp [hlen]⟩
  · intro q hf hden
    rcases fieldOf_obj hf with ⟨fields, rfl, hlk⟩
    simp only [goalIssues, hlk]
    refine List.mem_append_right _ ?_
    rw [confidenceIssues]
    refine List.mem_append_left _ (List.mem_append_left _ ?_)
    rw [if_neg hden]
    simp
  · intro q hf hlt
    rcases fieldOf_obj hf with ⟨fields, rfl, hlk⟩
    simp only [goalIssues, hlk]
    refine List.mem_append_right _ ?_
    rw [confidenceIssues]
    refine List.mem_append_left _ (List.mem_append_right _ ?_)
    rw [if_pos hlt]
    simp
  · intro q hf hgt
    rcases fieldOf_obj hf with ⟨fields, rfl, hlk⟩
    simp only [goalIssues, hlk]
    refine List.mem_append_right _ ?_
    rw [confidenceIssues]
    refine List.mem_append_right _ ?_
    rw [if_pos hgt]
    simp
  · intro env s resp hsc hat hp
    unfold refineGoal
    rw [if_neg (by simp [hsc])]
    unfold refineGoalBody inputText
    rw [retry_first_success env _ hat]
    unfold afterRetry
    simp only [afterCall]
    rw [hp]
    simp only [afterParse]
    rw [h]
    simp [afterValidate, failTrace]

/-- Witness for C7: all five violated constraints of the bad payload are
enumerated in one `ZodError`, and the pipeline fails with them after a
single attempt. -/
theorem validation_error_enumerates_all_witness :
    "refined_goal must be a non-empty string" ∈ badIssues ∧
    "key_results must have at least 3 items" ∈ badIssues ∧
    "Each key result must be a non-empty string" ∈ badIssues ∧
    "Expected integer, received float" ∈ badIssues ∧
    "confidence_score must be at most 10" ∈ badIssues ∧
    (refineGoal badEnv (.text "be happy")).result =
      .failed (.validationError badIssues) ∧
    (refineGoal badEnv (.text "be happy")).attempts = 1 := by
  have h := validation_error_enumerates_all badJ badIssues (by rfl)
  refine ⟨?_, ?_, ?_, ?_, ?_, ?_, ?_⟩
  · exact h.2.1 "" (by rfl) (by decide)
  · exact h.2.2.1 [Json.str "a", Json.str ""] (by rfl) (by decide)
  · refine h.2.2.2.2.1 [Json.str "a", Json.str ""] "" (by rfl) ?_ (by decide)
    show Json.str "" ∈ [Json.str "a", Json.str ""]
    simp
  · exact h.2.2.2.2.2.1 badScore (by rfl) (by decide)
  · exact h.2.2.2.2.2.2.2.1 badScore (by rfl) (by decide)
  · exact (h.2.2.2.2.2.2.2.2 badEnv "be happy" (mkEnvelope badPayload)
      (by decide) (by decide) (by rfl)).1
  · exact (h.2.2.2.2.2.2.2.2 badEnv "be happy" (mkEnvelope badPayload)
      (by decide) (by decide) (by rfl)).2

/-! ## Fence stripping: lemmas for the parse-equivalence claim -/

/-- Appending a closing fence to a list that does not already start with
the `json` tag cannot create one (the backtick blocks the tag pattern). -/
lemma hasJsonTag_append_fence {l : List Char} (h : hasJsonTag l = false) :
    hasJsonTag (l ++ fenceChars) = false := by
  unfold hasJsonTag at h ⊢
  by_cases hlen : 4 ≤ l.length
  · rw [List.take_append_eq_append_take,
      Nat.sub_eq_zero_of_le hlen, List.take_zero, List.append_nil]
    exact h
  · have h4 : l.take 4 = l := List.take_of_length_le (by omega)
    rw [List.take_append_eq_append_take, h4]
    have hk : ∃ k, 4 - l.length = k + 1 := ⟨3 - l.length, by omega⟩
    rcases hk with ⟨k, hk⟩
    rw [hk]
    have hmem : backtick ∈ l ++ fenceChars.take (k + 1) := by
      refine List.mem_append_right _ ?_
      show backtick ∈ (backtick :: "``".data).take (k + 1)
      rw [List.take_succ_cons]
      exact List.mem_cons_self _ _
    refine decide_eq_false ?_
    intro heq
    rw [heq] at hmem
    revert hmem
    decide

/-- The first fence of `l ++ fence` when `l` has no fence and does not end
in a backtick: it is exactly the appended one, at position `l.length`. -/
lemma findFence_append_fence :
    ∀ {l : List Char}, findFence l = none → l.getLast? ≠ some backtick →
      findFence (l ++ fenceChars) = some l.length := by
  intro l
  induction l with
  | nil => intro _ _; rfl
  | cons a l' ih =>
    intro hnf hlast
    have hdec : hasFencePrefix (a :: l') = false ∧ findFence l' = none := by
      unfold findFence at hnf
      by_cases hfp : hasFencePrefix (a :: l') = true
      · rw [if_pos hfp] at hnf
        exact absurd hnf (by simp)
      · rw [if_neg hfp] at hnf
        exact ⟨by simpa using hfp, by simpa using hnf⟩
    rcases hdec with ⟨hfp, hnf'⟩
    rw [List.cons_append]
    have hstep : findFence (a :: (l' ++ fenceChars)) =
        if hasFencePrefix (a :: (l' ++ fenceChars)) then some 0
        else (findFence (l' ++ fenceChars)).map Nat.succ := rfl
    rw [hstep]
    have hfp2 : hasFencePrefix (a :: (l' ++ fenceChars)) = false := by
      unfold hasFencePrefix at hfp ⊢
      cases l' with
      | nil =>
        have ha : a ≠ backtick := by
          intro hab
          exact hlast (by rw [hab]; rfl)
        refine decide_eq_false ?_
        intro heq
        rw [show ((a :: ([] ++ fenceChars)).take 3) =
            a :: "``".data from rfl] at heq
        exact ha (by injection heq)
      | cons b l'' =>
        cases l'' with
        | nil =>
          have hb : b ≠ backtick := by
            intro hbb
            exact hlast (by rw [hbb]; rfl)
          refine decide_eq_false ?_
          intro heq
          rw [show ((a :: ([b] ++ fenceChars)).take 3) =
              a :: b :: "`".data from rfl] at heq
          injection heq with _ heq2
          injection heq2 with hb2
          exact hb hb2
        | cons d l''' =>
          have htake : (a :: (b :: d :: l''' ++ fenceChars)).take 3 =
              (a :: b :: d :: l''').take 3 := rfl
          rw [htake]
          exact hfp
    rw [hfp2]
    have hlast' : l'.getLast? ≠ some backtick := by
      cases l' with
      | nil => simp
      | cons b l'' =>
        intro hcontra
        apply hlast
        rw [List.getLast?_cons_cons]
        exact hcontra
    rw [if_neg (by simp), ih hnf' hlast']
    rfl

/-- `parseResponse` on a single-part envelope with non-empty text payload
reduces to fence extraction, trim, and `JSON.parse`. -/
lemma parseResponse_mkEnvelope (p : String) (hp : p ≠ "") :
    parseResponse (mkEnvelope p) =
      match jsonParse ⟨jsTrimList (match extractCapture p.data with
        | some cap => cap
        | none => p.data)⟩ with
      | some v => .ok v
      | none => .error "Failed to parse API response: Unexpected token in JSON" := by
  have h0 : parseResponse (mkEnvelope p) =
      if p = "" then
        .error "Failed to parse API response: Invalid API response structure"
      else
        match jsonParse ⟨jsTrimList (match extractCapture p.data with
          | some cap => cap
          | none => p.data)⟩ with
        | some v => .ok v
        | none => .error "Failed to parse API response: Unexpected token in JSON" := rfl
  rw [h0, if_neg hp]

/-- C8 (amended): for content `c` that contains no fence of its own, does
not start with the `json` tag, and does not end in a backtick, a payload
wrapping `c` in a fenced code block — plain or tagged `json` — parses to
exactly the same result as the unwrapped payload `c`.  (Without these
side conditions the property fails; see the counterexample.) -/
theorem fenced_block_parse_equiv (c : String) (hne : c ≠ "")
    (hnofence : findFence c.data = none)
    (hnotag : hasJsonTag c.data = false)
    (hnotick : c.data.getLast? ≠ some backtick) :
    parseResponse (mkEnvelope ("```" ++ c ++ "```")) = parseResponse (mkEnvelope c) ∧
    parseResponse (mkEnvelope ("```json" ++ c ++ "```")) = parseResponse (mkEnvelope c) := by
  have hfence : findFence (c.data ++ fenceChars) = some c.data.length :=
    findFence_append_fence hnofence hnotick
  have htag : hasJsonTag (c.data ++ fenceChars) = false :=
    hasJsonTag_append_fence hnotag
  have htake : (c.data ++ fenceChars).take c.data.length = c.data :=
    List.take_left c.data fenceChars
  have hdata1 : ("```" ++ c ++ "```").data =
      fenceChars ++ (c.data ++ fenceChars) := by
    rw [String.data_append, String.data_append, List.append_assoc]
    rfl
  have hdata2 : ("```json" ++ c ++ "```").data =
      fenceChars ++ (jsonTagChars ++ (c.data ++ fenceChars)) := by
    rw [String.data_append, String.data_append, List.append_assoc]
    rfl
  have hcap1 : extractCapture (("```" ++ c ++ "```").data) = some c.data := by
    rw [hdata1]
    have hf0 : findFence (fenceChars ++ (c.data ++ fenceChars)) = some 0 := by
      have hstep : findFence (fenceChars ++ (c.data ++ fenceChars)) =
          if hasFencePrefix (fenceChars ++ (c.data ++ fenceChars)) = true then some 0
          else (findFence ("``".data ++ (c.data ++ fenceChars))).map Nat.succ := rfl
      rw [hstep,
        if_pos (show hasFencePrefix (fenceChars ++ (c.data ++ fenceChars)) = true
          from rfl)]
    have hmid : extractCapture (fenceChars ++ (c.data ++ fenceChars)) =
        match findFence (if hasJsonTag (c.data ++ fenceChars) = true
            then (c.data ++ fenceChars).drop 4 else (c.data ++ fenceChars)) with
        | none => none
        | some q => some ((if hasJsonTag (c.data ++ fenceChars) = true
            then (c.data ++ fenceChars).drop 4 else (c.data ++ fenceChars)).take q) := by
      unfold extractCapture
      rw [hf0]
      rfl
    rw [hmid,
      if_neg (show ¬ hasJsonTag (c.data ++ fenceChars) = true by simp [htag]),
      hfence]
    show some ((c.data ++ fenceChars).take c.data.length) = some c.data
    rw [htake]
  have hcap2 : extractCapture (("```json" ++ c ++ "```").data) = some c.data := by
    rw [hdata2]
    have hf0 : findFence (fenceChars ++ (jsonTagChars ++ (c.data ++ fenceChars))) =
        some 0 := by
      have hstep : findFence (fenceChars ++ (jsonTagChars ++ (c.data ++ fenceChars))) =
          if hasFencePrefix (fenceChars ++ (jsonTagChars ++ (c.data ++ fenceChars))) = true
          then some 0
          else (findFence ("``".data ++ (jsonTagChars ++ (c.data ++ fenceChars)))).map
            Nat.succ := rfl
      rw [hstep,
        if_pos (show hasFencePrefix
            (fenceChars ++ (jsonTagChars ++ (c.data ++ fenceChars))) = true from rfl)]
    have hmid : extractCapture (fenceChars ++ (jsonTagChars ++ (c.data ++ fenceChars))) =
        match findFence (if hasJsonTag (jsonTagChars ++ (c.data ++ fenceChars)) = true
            then (jsonTagChars ++ (c.data ++ fenceChars)).drop 4
            else (jsonTagChars ++ (c.data ++ fenceChars))) with
        | none => none
        | some q => some ((if hasJsonTag (jsonTagChars ++ (c.data ++ fenceChars)) = true
            then (jsonTagChars ++ (c.data ++ fenceChars)).drop 4
            else (jsonTagChars ++ (c.data ++ fenceChars))).take q) := by
      unfold extractCapture
      rw [hf0]
      rfl
    rw [hmid, if_pos (show hasJsonTag (jsonTagChars ++ (c.data ++ fenceChars)) = true
        from rfl)]
    have hdrop4 : (jsonTagChars ++ (c.data ++ fenceChars)).drop 4 =
        c.data ++ fenceChars := rfl
    rw [hdrop4, hfence]
    show some ((c.data ++ fenceChars).take c.data.length) = some c.data
    rw [htake]
  have hwne1 : ("```" ++ c ++ "```") ≠ "" := by
    intro heq
    have hd := congrArg String.data heq
    rw [hdata1, show ("".data : List Char) = [] from rfl, List.append_eq_nil] at hd
    exact absurd hd.1 (by decide)
  have hwne2 : ("```json" ++ c ++ "```") ≠ "" := by
    intro heq
    have hd := congrArg String.data heq
    rw [hdata2, show ("".data : List Char) = [] from rfl, List.append_eq_nil] at hd
    exact absurd hd.1 (by decide)
  have eu : (match extractCapture c.data with
      | some cap => cap
      | none => c.data) = c.data := by
    rw [show extractCapture c.data = none from by unfold extractCapture; rw [hnofence]]
  constructor
  · rw [parseResponse_mkEnvelope _ hwne1, parseResponse_mkEnvelope c hne]
    have e1 : (match extractCapture (("```" ++ c ++ "```").data) with
        | some cap => cap
        | none => ("```" ++ c ++ "```").data) = c.data := by
      rw [hcap1]
    rw [e1, eu]
  · rw [parseResponse_mkEnvelope _ hwne2, parseResponse_mkEnvelope c hne]
    have e2 : (match extractCapture (("```json" ++ c ++ "```").data) with
        | some cap => cap
        | none => ("```json" ++ c ++ "```").data) = c.data := by
      rw [hcap2]
    rw [e2, eu]

/-- Witness for the amended C8: a concrete side-condition-free content
parses identically wrapped and unwrapped. -/
theorem fenced_block_parse_equiv_witness :
    parseResponse (mkEnvelope ("```" ++ "\x7b\"a\":1\x7d" ++ "```")) =
      parseResponse (mkEnvelope "\x7b\"a\":1\x7d") ∧
    parseResponse (mkEnvelope ("```json" ++ "\x7b\"a\":1\x7d" ++ "```")) =
      parseResponse (mkEnvelope "\x7b\"a\":1\x7d") :=
  fenced_block_parse_equiv "\x7b\"a\":1\x7d" (by decide) (by decide) (by decide)
    (by decide)

/-- Counterexample to C8 as stated: the payload made of the plain fence
wrapping the content `1```2``` ` parses to the number 1, while that same
content unwrapped parses to the number 2 — the lazy fence regex stops at
the first inner fence of the wrapped form but matches the inner block of
the unwrapped form. -/
theorem fenced_block_parse_counterexample :
    ("```" ++ "1```2```" ++ "```" = "```1```2``````") ∧
    (parseResponse (mkEnvelope "```1```2``````")).toOption.bind Json.asNum? =
      some 1 ∧
    (parseResponse (mkEnvelope "1```2```")).toOption.bind Json.asNum? = some 2 ∧
    ¬ ((parseResponse (mkEnvelope "```1```2``````")).toOption.bind Json.asNum? =
       (parseResponse (mkEnvelope "1```2```")).toOption.bind Json.asNum?) := by
  refine ⟨by decide, by decide, by decide, by decide⟩

end AIGoalCoach
